import Mathlib

/-!
Shallow embedding of the Lapking Hub client code: the account and
authentication flow, the banner admin flow, and the product suggestion
flow, together with proofs of the behavioral properties stated in the
repository specification.
-/

namespace Lapking

/-! ## Shared text helpers (executable character-list versions of the
string operations the embedded code relies on) -/

/-- Split a character list at every occurrence of the separator
character; always returns at least one (possibly empty) piece. -/
def splitOnChar (sep : Char) (l : List Char) : List (List Char) :=
  match l with
  | [] => [[]]
  | x :: xs =>
      let r := splitOnChar sep xs
      if x = sep then [] :: r
      else
        match r with
        | [] => [[x]]
        | h :: t => (x :: h) :: t

/-- Numeric value of a list of decimal digit characters. -/
def digitsVal (l : List Char) : Nat :=
  l.foldl (fun n c => 10 * n + (c.toNat - 48)) 0

/-! ## Account flow: validation schemas -/

/-- A validation issue: the field path it is attached to and its message. -/
structure Issue where
  path : String
  message : String
  deriving DecidableEq

/-- One field check of an object schema: no issue when the check passes,
a single issue at the given path otherwise. -/
def checkIssue (ok : Bool) (path message : String) : List Issue :=
  if ok then [] else [⟨path, message⟩]

/-- Well-formedness of the domain part of an address: a dotted sequence
of at least two nonempty alphanumeric-or-dash labels whose final label
is alphabetic of length at least two. -/
def domainValid (domain : List Char) : Bool :=
  let labels := splitOnChar '.' domain
  decide (labels.length ≥ 2) &&
  labels.all (fun lab => lab.length > 0 &&
    lab.all (fun c => c.isAlphanum || c == '-')) &&
  (match labels.getLast? with
   | some tld => decide (tld.length ≥ 2) && tld.all Char.isAlpha
   | none => false)

/-- Modelled from the well-formed-address check of the validation
library: a nonempty local part of permitted characters, one at-sign, and
a valid domain. -/
def emailValid (s : String) : Bool :=
  match splitOnChar '@' s.toList with
  | [lpart, domain] =>
      lpart.length > 0 &&
      lpart.all (fun c => c.isAlphanum || "._+-\x27".toList.contains c) &&
      domainValid domain
  | _ => false

/-- The signup form input, as bound by the signup form fields. -/
structure SignupInput where
  name : String
  email : String
  phone : String
  password : String
  confirmPassword : String
  agreeToTerms : Bool
  deriving DecidableEq

/-- The per-field checks of the signup schema base object, in field
order: name at least 2 characters, well-formed email, phone at least 10
characters, password at least 6 characters, and the terms checkbox
refinement requiring the value to be true.  The confirm-password field
itself carries no check. -/
def signupBaseIssues (i : SignupInput) : List Issue :=
  checkIssue (decide (i.name.length ≥ 2)) "name" "Name must be at least 2 characters." ++
  checkIssue (emailValid i.email) "email" "Invalid email address." ++
  checkIssue (decide (i.phone.length ≥ 10)) "phone" "Enter a valid 10-digit phone number." ++
  checkIssue (decide (i.password.length ≥ 6)) "password" "Password must be at least 6 characters." ++
  checkIssue (i.agreeToTerms == true) "agreeToTerms" "You must accept the terms and conditions."

/-- Signup schema validation.  The object-level refinement comparing
`password` with `confirmPassword` runs after the base object checks and
appends its issue at the `confirmPassword` path; since every form input
is type-correct (strings and a boolean), the base parse never aborts and
the refinement always executes.  An empty issue list means validation
succeeded. -/
def validateSignup (i : SignupInput) : List Issue :=
  signupBaseIssues i ++
    checkIssue (i.password == i.confirmPassword) "confirmPassword" "Passwords don\x27t match."

/-- Whether submitting the signup form reaches the account-creation
call: the resolver invokes the submit handler only when validation
produced no issues, and the handler then requires an initialized auth
handle before calling the provider. -/
def signupCreateCalled (authReady : Bool) (i : SignupInput) : Bool :=
  (validateSignup i).isEmpty && authReady

/-- The number of decimal digit characters in a string. -/
def countDigits (s : String) : Nat :=
  (s.toList.filter Char.isDigit).length

/-! ## Account flow: conditional profile document write -/

/-- The profile document stored in the users collection. -/
structure UserDoc where
  uid : String
  email : Option String
  name : Option String
  phone : String
  role : String
  createdAt : Nat
  deriving DecidableEq

/-- The extra data the signup path passes to the conditional profile
write (its validated name and phone); the federated sign-in path passes
nothing. -/
structure SignupExtra where
  name : String
  phone : String
  deriving DecidableEq

/-- JavaScript `a || b` on optional strings: absent and empty strings
are falsy. -/
def jsOr (a b : Option String) : Option String :=
  match a with
  | some s => if s = "" then b else some s
  | none => b

/-- The fields written by the conditional profile write when the
document is absent.  `name` and `phone` are first computed from the auth
user with `||` fallbacks, then the trailing spread of the extra data
overrides them when extra data was passed; `role` is the literal default
customer role; `createdAt` is the server timestamp. -/
def mkUserDoc (uid : String) (email displayName phoneNumber : Option String)
    (extra : Option SignupExtra) (now : Nat) : UserDoc :=
  let baseName := jsOr displayName (extra.map SignupExtra.name)
  let basePhone := (jsOr (jsOr phoneNumber (extra.map SignupExtra.phone)) (some "")).getD ""
  match extra with
  | some e =>
      { uid := uid, email := email, name := some e.name, phone := e.phone,
        role := "customer", createdAt := now }
  | none =>
      { uid := uid, email := email, name := baseName, phone := basePhone,
        role := "customer", createdAt := now }

/-- The conditional profile write: read the document at the uid; when it
exists, write nothing (preserving role and all other data); when it is
absent, create it with the default customer role. -/
def handleUserDoc (store : String → Option UserDoc) (uid : String)
    (email displayName phoneNumber : Option String)
    (extra : Option SignupExtra) (now : Nat) : String → Option UserDoc :=
  match store uid with
  | some _ => store
  | none =>
      fun u =>
        if u = uid then some (mkUserDoc uid email displayName phoneNumber extra now)
        else store u

/-! ## Account flow: login submission effects -/

/-- A toast-style notification. -/
structure Toast where
  title : String
  description : Option String
  destructive : Bool
  deriving DecidableEq

/-- The observable effects of a login submission. -/
structure LoginEffects where
  toasts : List Toast
  navigatedTo : Option String
  deriving DecidableEq

/-- An error surfaced by the identity provider. -/
structure AuthError where
  code : String
  message : String
  deriving DecidableEq

/-- The login submit handler after the sign-in call resolves: on success
a success toast and navigation to the root route; on any error a single
destructive toast titled Login Failed with the fixed generic
description, and no navigation. -/
def onLoginSubmit (outcome : Except AuthError Unit) : LoginEffects :=
  match outcome with
  | .ok _ =>
      { toasts := [⟨"Successfully logged in!", none, false⟩], navigatedTo := some "/" }
  | .error _ =>
      { toasts := [⟨"Login Failed", some "Invalid email or password.", true⟩],
        navigatedTo := none }

/-! ## Banner admin flow: schema -/

/-- The banner form input as submitted: text fields as strings, optional
fields absent when not provided, and the sort order as the raw text of
the number input (absent when the key is missing). -/
structure BannerInput where
  title : String
  subtitle : Option String
  imageUrl : String
  ctaLabel : Option String
  ctaLink : Option String
  isActive : Option Bool
  sortOrder : Option String
  deriving DecidableEq

/-- The parsed banner form data produced by a successful validation. -/
structure BannerFormData where
  title : String
  subtitle : Option String
  imageUrl : String
  ctaLabel : Option String
  ctaLink : Option String
  isActive : Bool
  sortOrder : Int
  deriving DecidableEq

/-- An exact decimal number `mant / 10 ^ scale`, the value a numeric
coercion produces. -/
structure JsNum where
  mant : Int
  scale : Nat
  deriving DecidableEq

/-- Modelled from JavaScript numeric coercion of the decimal numerals a
number input produces: the empty string coerces to 0; otherwise an
optional sign followed by digits with at most one decimal point and at
least one digit; anything else is not a number (`none`).  Exponent and
radix-prefixed forms are not modelled. -/
def jsToNumber (s : String) : Option JsNum :=
  match s.toList with
  | [] => some ⟨0, 0⟩
  | l =>
      let (sign, body) :=
        match l with
        | '-' :: rest => ((-1 : Int), rest)
        | '+' :: rest => ((1 : Int), rest)
        | _ => ((1 : Int), l)
      match splitOnChar '.' body with
      | [ip] =>
          if ip.length > 0 && ip.all Char.isDigit then
            some ⟨sign * (digitsVal ip : Int), 0⟩
          else none
      | [ip, fp] =>
          if (ip.length > 0 || fp.length > 0) &&
              ip.all Char.isDigit && fp.all Char.isDigit then
            some ⟨sign * ((digitsVal ip : Int) * (10 : Int) ^ fp.length + (digitsVal fp : Int)),
                  fp.length⟩
          else none
      | _ => none

/-- Whether the coerced number is an integer. -/
def JsNum.isInteger (q : JsNum) : Bool :=
  q.mant % ((10 : Int) ^ q.scale) == 0

/-- The integer value of an integral coerced number. -/
def JsNum.toInt (q : JsNum) : Int :=
  q.mant / ((10 : Int) ^ q.scale)

/-- The sort-order field of the banner schema: coerce to a number and
require an integer, with the default 0 when the value is absent. -/
def coerceSortOrder (o : Option String) : Option Int :=
  match o with
  | none => some 0
  | some s =>
      match jsToNumber s with
      | none => none
      | some q => if q.isInteger then some q.toInt else none

/-- Modelled from the URL constructor used by the URL string check: a
well-formed URL starts with a scheme (a letter followed by letters,
digits, plus, dash or dot) and a colon. -/
def isValidUrl (s : String) : Bool :=
  let l := s.toList
  let scheme := l.takeWhile (fun c => c ≠ ':')
  l.contains ':' &&
  (match scheme with
   | c :: _ => c.isAlpha
   | [] => false) &&
  scheme.all (fun c => c.isAlphanum || c == '+' || c == '-' || c == '.')

/-- Banner schema validation: `title` nonempty (minimum length 1),
`imageUrl` a well-formed URL, `isActive` defaulting to true, `sortOrder`
coerced to an integer with default 0; the optional text fields pass
through. -/
def bannerParse (i : BannerInput) : Option BannerFormData :=
  match coerceSortOrder i.sortOrder with
  | none => none
  | some n =>
      if decide (i.title.length ≥ 1) && isValidUrl i.imageUrl then
        some { title := i.title, subtitle := i.subtitle, imageUrl := i.imageUrl,
               ctaLabel := i.ctaLabel, ctaLink := i.ctaLink,
               isActive := i.isActive.getD true, sortOrder := n }
      else none

/-! ## Banner admin flow: list ordering -/

/-- A banner record as stored, with its document id and timestamps. -/
structure Banner where
  id : String
  title : String
  sortOrder : Int
  isActive : Bool
  createdAt : Nat
  updatedAt : Nat
  deriving DecidableEq

/-- The composite ordering requested from the store subscription: sort
order ascending, then creation time descending. -/
def bannerLE (a b : Banner) : Bool :=
  decide (a.sortOrder < b.sortOrder) ||
    (a.sortOrder == b.sortOrder && decide (b.createdAt ≤ a.createdAt))

/-- The ordered snapshot the banners page renders. -/
def orderedBanners (l : List Banner) : List Banner :=
  l.mergeSort bannerLE

/-! ## Banner admin flow: form submission -/

/-- An error raised by a document write. -/
structure WriteError where
  message : String
  deriving DecidableEq

/-- The observable result of one banner form submission given the
outcome of the document write: whether the finishing callback ran, the
toast emitted, and the in-flight flag after the final block. -/
structure BannerSubmitResult where
  finishedCalled : Bool
  toast : Toast
  loading : Bool
  deriving DecidableEq

/-- The banner form submit handler after validation passed: performs the
write (update when editing, add when creating); on success emits the
success toast and invokes the finishing callback; on failure emits a
destructive toast carrying the error message and does not invoke the
callback. -/
def bannerSubmit (isEdit : Bool) (write : Except WriteError Unit) : BannerSubmitResult :=
  match write with
  | .ok _ =>
      { finishedCalled := true,
        toast := ⟨if isEdit then "Banner updated successfully" else "Banner added successfully",
                  none, false⟩,
        loading := false }
  | .error e =>
      { finishedCalled := false,
        toast := ⟨"Error saving banner", some e.message, true⟩,
        loading := false }

/-- The dialog open state after a submission: the finishing callback is
the closing callback passed by the page; otherwise the state is left
untouched. -/
def dialogOpenAfter (openBefore : Bool) (r : BannerSubmitResult) : Bool :=
  if r.finishedCalled then false else openBefore

/-! ## Banner admin flow: edit payload and document update -/

/-- A document field value. -/
inductive FieldValue where
  | s : String → FieldValue
  | b : Bool → FieldValue
  | i : Int → FieldValue
  | ts : Nat → FieldValue
  deriving DecidableEq

/-- The field entries contributed by the spread of the validated form
data, in field order; optional fields contribute a key only when
present. -/
def dataFields (d : BannerFormData) : List (String × FieldValue) :=
  [("title", FieldValue.s d.title)] ++
  (match d.subtitle with | some v => [("subtitle", FieldValue.s v)] | none => []) ++
  [("imageUrl", FieldValue.s d.imageUrl)] ++
  (match d.ctaLabel with | some v => [("ctaLabel", FieldValue.s v)] | none => []) ++
  (match d.ctaLink with | some v => [("ctaLink", FieldValue.s v)] | none => []) ++
  [("isActive", FieldValue.b d.isActive), ("sortOrder", FieldValue.i d.sortOrder)]

/-- The update payload of a banner edit: the spread of the validated
form data followed by the refreshed update server timestamp. -/
def editPayload (d : BannerFormData) (now : Nat) : List (String × FieldValue) :=
  dataFields d ++ [("updatedAt", FieldValue.ts now)]

/-- Set one field of a stored document, replacing an existing binding
for that name. -/
def setField (doc : List (String × FieldValue)) (k : String) (v : FieldValue) :
    List (String × FieldValue) :=
  match doc with
  | [] => [(k, v)]
  | (k0, v0) :: rest => if k0 = k then (k, v) :: rest else (k0, v0) :: setField rest k v

/-- The document update operation: apply each payload field to the
stored document, leaving fields outside the payload untouched. -/
def applyUpdate (doc payload : List (String × FieldValue)) : List (String × FieldValue) :=
  payload.foldl (fun d kv => setField d kv.1 kv.2) doc

/-- Read one field of a stored document. -/
def lookupField (doc : List (String × FieldValue)) (k : String) : Option FieldValue :=
  match doc with
  | [] => none
  | (k0, v0) :: rest => if k0 = k then some v0 else lookupField rest k

/-! ## Suggestion flow -/

/-- One cart item of a suggestion request. -/
structure CartItem where
  name : String
  description : String
  deriving DecidableEq

/-- The suggestion request: both parts optional. -/
structure SuggestInput where
  cartItems : Option (List CartItem)
  requirements : Option String
  deriving DecidableEq

/-- The declared structured output: a list of suggestion strings. -/
structure SuggestOutput where
  suggestions : List String
  deriving DecidableEq

/-- Template truthiness of the optional cart list: the conditional
helper of the templating language treats an absent value and an empty
array as empty, so only a nonempty list is truthy. -/
def hbTruthy (l : Option (List CartItem)) : Bool :=
  match l with
  | some (_ :: _) => true
  | _ => false

/-- The rendered cart items block: one line per item. -/
def cartLines (items : List CartItem) : String :=
  String.intercalate "\n" (items.map (fun i => "- " ++ i.name ++ ": " ++ i.description))

/-- The cart section of the rendered prompt: the items block when the
cart list is truthy, the fixed else line otherwise. -/
def cartSection (l : Option (List CartItem)) : String :=
  if hbTruthy l then cartLines (l.getD []) else "No items in cart."

/-- Interpolation of the requirements placeholder: an absent value
renders as the empty string. -/
def requirementsText (r : Option String) : String := r.getD ""

/-- The rendered prompt: the fixed instruction text with the two
interpolated parts (surrounding template whitespace normalized). -/
def renderPrompt (i : SuggestInput) : String :=
  "You are an AI assistant specializing in suggesting compatible products for an e-commerce platform.\n\n" ++
  "Based on the items in the user\x27s cart and/or their stated requirements, you will provide a list of product suggestions.\n\n" ++
  "If the user has items in their cart, use the product names and descriptions to determine what other products might be compatible.\n" ++
  "If the user has stated specific requirements, prioritize those requirements when making suggestions.\n\n" ++
  "Cart Items:\n" ++ cartSection i.cartItems ++ "\n\n" ++
  "Requirements: " ++ requirementsText i.requirements ++ "\n\n" ++
  "Suggestions:"

/-- A raw structured value returned by the remote model. -/
inductive JVal where
  | str : String → JVal
  | arr : List JVal → JVal
  | obj : List (String × JVal) → JVal
  | nul : JVal

/-- Read a string out of a raw value. -/
def asString (v : JVal) : Option String :=
  match v with
  | .str s => some s
  | _ => none

/-- Look up a key of a raw object field list. -/
def jLookup (fields : List (String × JVal)) (k : String) : Option JVal :=
  match fields with
  | [] => none
  | (k0, v) :: rest => if k0 = k then some v else jLookup rest k

/-- Decode the raw model reply against the declared output schema: an
object whose suggestions field holds an array of strings. -/
def decodeOutput (v : JVal) : Option SuggestOutput :=
  match v with
  | .obj fields =>
      match jLookup fields "suggestions" with
      | some (.arr xs) =>
          if xs.all (fun x => (asString x).isSome) then
            some ⟨xs.filterMap asString⟩
          else none
      | _ => none
  | _ => none

/-- The errors a flow call can end with. -/
inductive FlowError where
  | modelError : String → FlowError
  | schemaViolation : FlowError
  deriving DecidableEq

/-- The prompt call: forwards a remote failure; validates a reply
against the output schema, failing when it does not conform. -/
def promptCall (reply : Except String JVal) : Except FlowError SuggestOutput :=
  match reply with
  | .error e => .error (.modelError e)
  | .ok raw =>
      match decodeOutput raw with
      | none => .error .schemaViolation
      | some o => .ok o

/-- The suggestion flow body: awaits the prompt call and returns its
output; no catch, retry, or fallback surrounds the call. -/
def suggestCompatibleProductsFlow (reply : Except String JVal) :
    Except FlowError SuggestOutput :=
  promptCall reply

/-- The exported wrapper simply invokes the flow. -/
def suggestCompatibleProducts (reply : Except String JVal) :
    Except FlowError SuggestOutput :=
  suggestCompatibleProductsFlow reply

/-- A sample stored profile document, used to instantiate theorems. -/
def sampleUserDoc : UserDoc :=
  ⟨"u1", some "ana@example.com", some "Ana", "0123456789", "admin", 5⟩

/-- A profile store holding only the sample document. -/
def sampleStore : String → Option UserDoc :=
  fun u => if u = "u1" then some sampleUserDoc else none

/-- A profile store holding no documents. -/
def emptyStore : String → Option UserDoc := fun _ => none

/-! ## Helper lemmas -/

theorem mem_checkIssue {x : Issue} {ok : Bool} {p m : String} :
    x ∈ checkIssue ok p m ↔ ok = false ∧ x = ⟨p, m⟩ := by
  cases ok <;> simp [checkIssue]

theorem createCalled_false_of_invalid {i : SignupInput}
    (h : validateSignup i ≠ []) (authReady : Bool) :
    signupCreateCalled authReady i = false := by
  unfold signupCreateCalled
  cases hv : validateSignup i with
  | nil => exact absurd hv h
  | cons a l => simp [List.isEmpty]

theorem bannerLE_iff {a b : Banner} :
    bannerLE a b = true ↔
      (a.sortOrder < b.sortOrder ∨
        (a.sortOrder = b.sortOrder ∧ b.createdAt ≤ a.createdAt)) := by
  simp [bannerLE, Bool.or_eq_true, Bool.and_eq_true, decide_eq_true_eq, beq_iff_eq]

theorem bannerLE_trans : ∀ (a b c : Banner), bannerLE a b → bannerLE b c → bannerLE a c := by
  intro a b c hab hbc
  rw [bannerLE_iff] at hab hbc ⊢
  omega

theorem bannerLE_total : ∀ (a b : Banner), bannerLE a b || bannerLE b a := by
  intro a b
  rw [Bool.or_eq_true, bannerLE_iff, bannerLE_iff]
  omega

theorem bannerParse_sortOrder_eq {i : BannerInput} {d : BannerFormData}
    (h : bannerParse i = some d) : coerceSortOrder i.sortOrder = some d.sortOrder := by
  cases hc : coerceSortOrder i.sortOrder with
  | none => rw [bannerParse, hc] at h; exact absurd h (by simp)
  | some n =>
      rw [bannerParse, hc] at h
      dsimp only at h
      by_cases hcond : (decide (i.title.length ≥ 1) && isValidUrl i.imageUrl) = true
      · rw [if_pos hcond] at h
        injection h with h2
        subst h2
        rfl
      · rw [if_neg hcond] at h
        cases h

theorem lookupField_setField_self (doc : List (String × FieldValue)) (k : String)
    (v : FieldValue) : lookupField (setField doc k v) k = some v := by
  induction doc with
  | nil => simp [setField, lookupField]
  | cons hd tl ih =>
      obtain ⟨k0, v0⟩ := hd
      by_cases h : k0 = k
      · simp [setField, lookupField, h]
      · simp [setField, lookupField, h, ih]

theorem lookupField_setField_ne (doc : List (String × FieldValue)) (k k' : String)
    (v : FieldValue) (h : k' ≠ k) :
    lookupField (setField doc k v) k' = lookupField doc k' := by
  induction doc with
  | nil =>
      have hne : k ≠ k' := fun he => h he.symm
      simp [setField, lookupField, hne]
  | cons hd tl ih =>
      obtain ⟨k0, v0⟩ := hd
      by_cases hk : k0 = k
      · subst hk
        have hne : k0 ≠ k' := fun he => h he.symm
        simp [setField, lookupField, hne]
      · simp only [setField, if_neg hk, lookupField]
        by_cases hk' : k0 = k'
        · simp [hk']
        · simp [hk', ih]

theorem lookupField_applyUpdate_not_mem (doc payload : List (String × FieldValue))
    (k : String) (h : k ∉ payload.map Prod.fst) :
    lookupField (applyUpdate doc payload) k = lookupField doc k := by
  induction payload generalizing doc with
  | nil => rfl
  | cons hd tl ih =>
      obtain ⟨k0, v0⟩ := hd
      simp only [List.map_cons, List.mem_cons, not_or] at h
      show lookupField (applyUpdate (setField doc k0 v0) tl) k = lookupField doc k
      rw [ih (setField doc k0 v0) h.2, lookupField_setField_ne doc k0 k v0 h.1]

theorem applyUpdate_append (doc p q : List (String × FieldValue)) :
    applyUpdate doc (p ++ q) = applyUpdate (applyUpdate doc p) q := by
  simp [applyUpdate, List.foldl_append]

theorem dataFields_keys (d : BannerFormData) :
    (dataFields d).map Prod.fst ⊆
      ["title", "subtitle", "imageUrl", "ctaLabel", "ctaLink", "isActive", "sortOrder"] := by
  intro k hk
  rcases d with ⟨t, st, iu, cl, cli, ia, so⟩
  cases st <;> cases cl <;> cases cli <;> simp_all [dataFields] <;> tauto

/-! ## Claim theorems -/

/-- C1: for every uid, the conditional profile write is a no-op when a
profile document for that uid already exists (role and every other
existing field, at every uid, are left unchanged), and when no document
exists it creates one with role equal to the fixed default customer,
leaving every other uid untouched. -/
theorem handleUserDoc_conditional_write
    (store : String → Option UserDoc) (uid : String)
    (email displayName phoneNumber : Option String)
    (extra : Option SignupExtra) (now : Nat) :
    ((store uid).isSome = true →
      handleUserDoc store uid email displayName phoneNumber extra now = store) ∧
    (store uid = none →
      handleUserDoc store uid email displayName phoneNumber extra now uid
          = some (mkUserDoc uid email displayName phoneNumber extra now) ∧
      (mkUserDoc uid email displayName phoneNumber extra now).role = "customer" ∧
      ∀ u, u ≠ uid →
        handleUserDoc store uid email displayName phoneNumber extra now u = store u) := by
  constructor
  · intro h
    cases hs : store uid with
    | some d => simp [handleUserDoc, hs]
    | none => rw [hs] at h; simp at h
  · intro h
    refine ⟨?_, ?_, ?_⟩
    · simp [handleUserDoc, h]
    · cases extra <;> simp [mkUserDoc]
    · intro u hu
      simp [handleUserDoc, h, hu]

/-- C1 witness: with the sample store the write at the existing uid
changes nothing, and with the empty store it creates the document with
the customer role. -/
theorem handleUserDoc_conditional_write_witness :
    handleUserDoc sampleStore "u1" none none none none 9 = sampleStore ∧
    handleUserDoc emptyStore "u1" none none none none 9 "u1"
        = some (mkUserDoc "u1" none none none none 9) ∧
    (mkUserDoc "u1" none none none none 9).role = "customer" :=
  ⟨(handleUserDoc_conditional_write sampleStore "u1" none none none none 9).1
      (by simp [sampleStore, sampleUserDoc]),
   ((handleUserDoc_conditional_write emptyStore "u1" none none none none 9).2 rfl).1,
   (((handleUserDoc_conditional_write emptyStore "u1" none none none none 9).2 rfl).2).1⟩

/-- C2: for every signup input whose password differs from the
confirmation, validation fails, the failure carries an issue attached to
the confirmPassword field, and account creation is not called; likewise
any input with the terms checkbox unchecked fails validation and never
reaches account creation. -/
theorem signup_mismatch_and_terms_guard (i : SignupInput) (authReady : Bool) :
    (i.password ≠ i.confirmPassword →
      validateSignup i ≠ [] ∧
      (⟨"confirmPassword", "Passwords don\x27t match."⟩ : Issue) ∈ validateSignup i ∧
      signupCreateCalled authReady i = false) ∧
    (i.agreeToTerms = false →
      validateSignup i ≠ [] ∧ signupCreateCalled authReady i = false) := by
  constructor
  · intro hne
    have hbeq : (i.password == i.confirmPassword) = false := beq_eq_false_iff_ne.mpr hne
    have hv : validateSignup i ≠ [] := by
      simp [validateSignup, checkIssue, hbeq]
    have hmem : (⟨"confirmPassword", "Passwords don\x27t match."⟩ : Issue) ∈ validateSignup i := by
      simp [validateSignup, checkIssue, hbeq]
    exact ⟨hv, hmem, createCalled_false_of_invalid hv authReady⟩
  · intro hA
    have hv : validateSignup i ≠ [] := by
      simp [validateSignup, signupBaseIssues, checkIssue, hA]
    exact ⟨hv, createCalled_false_of_invalid hv authReady⟩

/-- C2 witness: a concrete input with mismatched passwords (and the
terms box unchecked) fails validation with the confirmPassword issue and
does not create an account. -/
theorem signup_mismatch_and_terms_guard_witness :
    validateSignup ⟨"John", "jo@bc.de", "0123456789", "secret", "Secret", false⟩ ≠ [] ∧
    (⟨"confirmPassword", "Passwords don\x27t match."⟩ : Issue) ∈
      validateSignup ⟨"John", "jo@bc.de", "0123456789", "secret", "Secret", false⟩ ∧
    signupCreateCalled true ⟨"John", "jo@bc.de", "0123456789", "secret", "Secret", false⟩ = false :=
  (signup_mismatch_and_terms_guard
      ⟨"John", "jo@bc.de", "0123456789", "secret", "Secret", false⟩ true).1 (by decide)

/-- C4: every failed login attempt, whatever the underlying error,
emits exactly one notification titled Login Failed with the fixed
description Invalid email or password (independent of the error, so in
particular never revealing whether the email exists), and performs no
navigation. -/
theorem login_failure_generic (e : AuthError) :
    onLoginSubmit (Except.error e) =
      { toasts := [⟨"Login Failed", some "Invalid email or password.", true⟩],
        navigatedTo := none } := rfl

/-- C4 witness: the fixed failure effects at a concrete provider error. -/
theorem login_failure_generic_witness :
    onLoginSubmit (Except.error ⟨"auth/wrong-password", "The password is invalid."⟩) =
      { toasts := [⟨"Login Failed", some "Invalid email or password.", true⟩],
        navigatedTo := none } :=
  login_failure_generic ⟨"auth/wrong-password", "The password is invalid."⟩

/-- C5 counterexample: the phone value of ten letters contains no digit
at all, yet the signup input is accepted by validation and reaches the
account-creation call, refuting the claim that a phone is accepted only
when it consists of at least 10 digits. -/
theorem signup_phone_no_digits_accepted :
    validateSignup ⟨"John Doe", "john@example.com", "abcdefghij", "secret", "secret", true⟩ = [] ∧
    countDigits "abcdefghij" = 0 ∧
    signupCreateCalled true
      ⟨"John Doe", "john@example.com", "abcdefghij", "secret", "secret", true⟩ = true := by
  exact ⟨by decide, by decide, by decide⟩

/-- C5 amended: signup validation flags the phone field exactly when the
phone value is shorter than 10 characters (not digits); every input with
a shorter phone fails validation on the phone field and never reaches
account creation. -/
theorem signup_phone_length_check (i : SignupInput) (authReady : Bool) :
    ((⟨"phone", "Enter a valid 10-digit phone number."⟩ : Issue) ∈ validateSignup i
        ↔ i.phone.length < 10) ∧
    (i.phone.length < 10 →
      validateSignup i ≠ [] ∧ signupCreateCalled authReady i = false) := by
  have hmem : (⟨"phone", "Enter a valid 10-digit phone number."⟩ : Issue) ∈ validateSignup i
      ↔ i.phone.length < 10 := by
    simp only [validateSignup, signupBaseIssues, List.mem_append, mem_checkIssue,
      Issue.mk.injEq]
    simp
  refine ⟨hmem, fun hlt => ?_⟩
  have hm := hmem.mpr hlt
  have hv : validateSignup i ≠ [] := by
    intro h0
    rw [h0] at hm
    simp at hm
  exact ⟨hv, createCalled_false_of_invalid hv authReady⟩

/-- C5 amended witness: a concrete nine-character phone is rejected on
the phone field and no account creation occurs. -/
theorem signup_phone_length_check_witness :
    validateSignup ⟨"John", "jo@bc.de", "012345678", "secret", "secret", true⟩ ≠ [] ∧
    signupCreateCalled true ⟨"John", "jo@bc.de", "012345678", "secret", "secret", true⟩ = false :=
  (signup_phone_length_check ⟨"John", "jo@bc.de", "012345678", "secret", "secret", true⟩ true).2
    (by decide)

/-- C3: for any set of banner records, the rendered list is a
permutation of the records sorted so that sort order ascends and, on
equal sort orders, creation time descends. -/
theorem banners_render_order (l : List Banner) :
    List.Perm (orderedBanners l) l ∧
    List.Pairwise
      (fun a b => a.sortOrder < b.sortOrder ∨
        (a.sortOrder = b.sortOrder ∧ b.createdAt ≤ a.createdAt))
      (orderedBanners l) := by
  constructor
  · exact List.mergeSort_perm l bannerLE
  · have h := List.sorted_mergeSort bannerLE_trans bannerLE_total l
    exact h.imp (fun hab => bannerLE_iff.mp hab)

/-- C6: banner validation succeeds exactly when the title is nonempty,
the image URL is well formed, and the sort order coerces to an integer
(absent defaulting to 0); on success the resulting integer sort order is
the coerced value, and 0 when the field was absent. -/
theorem bannerParse_characterization (i : BannerInput) :
    ((bannerParse i).isSome = true ↔
      (1 ≤ i.title.length ∧ isValidUrl i.imageUrl = true ∧
        (coerceSortOrder i.sortOrder).isSome = true)) ∧
    (∀ d, bannerParse i = some d → coerceSortOrder i.sortOrder = some d.sortOrder) ∧
    (∀ d, i.sortOrder = none → bannerParse i = some d → d.sortOrder = 0) := by
  refine ⟨?_, ?_, ?_⟩
  · cases hc : coerceSortOrder i.sortOrder with
    | none => simp [bannerParse, hc]
    | some n =>
        by_cases ht : 1 ≤ i.title.length <;> by_cases hu : isValidUrl i.imageUrl = true <;>
          simp [bannerParse, hc, ht, hu]
  · intro d h
    exact bannerParse_sortOrder_eq h
  · intro d hnone h
    have hs := bannerParse_sortOrder_eq h
    rw [hnone] at hs
    simp [coerceSortOrder] at hs
    omega

/-- C6 witness: a concrete valid submission parses, its sort order is
the coerced integer 1, and a submission without a sort order receives
the default 0. -/
theorem bannerParse_characterization_witness :
    (bannerParse ⟨"Sale", none, "https://x.com/a.png", none, none, none, some "1"⟩).isSome
        = true ∧
    coerceSortOrder (BannerInput.mk "Sale" none "https://x.com/a.png" none none none
        (some "1")).sortOrder
      = some (BannerFormData.mk "Sale" none "https://x.com/a.png" none none true 1).sortOrder ∧
    (BannerFormData.mk "Sale" none "https://x.com/a.png" none none true 0).sortOrder = 0 :=
  ⟨((bannerParse_characterization
        ⟨"Sale", none, "https://x.com/a.png", none, none, none, some "1"⟩).1).mpr (by decide),
   ((bannerParse_characterization
        ⟨"Sale", none, "https://x.com/a.png", none, none, none, some "1"⟩).2).1
      (BannerFormData.mk "Sale" none "https://x.com/a.png" none none true 1) (by decide),
   (((bannerParse_characterization
        ⟨"Sale", none, "https://x.com/a.png", none, none, none, none⟩).2).2)
      (BannerFormData.mk "Sale" none "https://x.com/a.png" none none true 0) rfl (by decide)⟩

/-- C7: the suggestion flow fails outright, propagating the error to
its caller with no retry, fallback list or truncated result: a remote
failure is forwarded as a model error, a reply not conforming to the
declared output schema ends as a schema violation, and the flow only
succeeds with exactly the decoded conforming reply. -/
theorem flow_propagates_failure :
    (∀ e, suggestCompatibleProductsFlow (Except.error e)
        = Except.error (FlowError.modelError e)) ∧
    (∀ raw, decodeOutput raw = none →
      suggestCompatibleProductsFlow (Except.ok raw) = Except.error FlowError.schemaViolation) ∧
    (∀ reply o, suggestCompatibleProductsFlow reply = Except.ok o →
      ∃ raw, reply = Except.ok raw ∧ decodeOutput raw = some o) := by
  refine ⟨fun e => rfl, ?_, ?_⟩
  · intro raw h
    simp [suggestCompatibleProductsFlow, promptCall, h]
  · intro reply o h
    cases reply with
    | error e => simp [suggestCompatibleProductsFlow, promptCall] at h
    | ok raw =>
        refine ⟨raw, rfl, ?_⟩
        cases hd : decodeOutput raw with
        | none => simp [suggestCompatibleProductsFlow, promptCall, hd] at h
        | some o2 =>
            simp [suggestCompatibleProductsFlow, promptCall, hd] at h
            rw [h]

/-- C7 witness: a concrete remote failure propagates as a model error,
and a concrete nonconforming reply (null) ends as a schema violation. -/
theorem flow_propagates_failure_witness :
    suggestCompatibleProductsFlow (Except.error "boom")
        = Except.error (FlowError.modelError "boom") ∧
    suggestCompatibleProductsFlow (Except.ok JVal.nul)
        = Except.error FlowError.schemaViolation :=
  ⟨flow_propagates_failure.1 "boom", flow_propagates_failure.2.1 JVal.nul rfl⟩

/-- C8: with an empty cart list the cart section of the rendered prompt
is the literal else line, an empty requirements string interpolates to
the empty string, and the cart items block is included exactly when the
cart list is nonempty. -/
theorem prompt_empty_cart_rendering :
    cartSection (some []) = "No items in cart." ∧
    cartSection none = "No items in cart." ∧
    requirementsText (some "") = "" ∧
    (∀ items, items ≠ [] → cartSection (some items) = cartLines items) ∧
    (∀ l, hbTruthy l = true ↔ ∃ items, l = some items ∧ items ≠ []) ∧
    renderPrompt ⟨some [], some ""⟩ = renderPrompt ⟨none, none⟩ := by
  refine ⟨rfl, rfl, rfl, ?_, ?_, rfl⟩
  · intro items hne
    cases items with
    | nil => exact absurd rfl hne
    | cons a t => rfl
  · intro l
    match l with
    | none => simp [hbTruthy]
    | some [] => simp [hbTruthy]
    | some (a :: t) => simp [hbTruthy]

/-- C8 witness: a concrete nonempty cart renders its items block and is
truthy for the conditional helper. -/
theorem prompt_empty_cart_rendering_witness :
    cartSection (some [⟨"RAM", "8GB DDR4"⟩]) = cartLines [⟨"RAM", "8GB DDR4"⟩] ∧
    hbTruthy (some [⟨"RAM", "8GB DDR4"⟩]) = true :=
  ⟨prompt_empty_cart_rendering.2.2.2.1 [⟨"RAM", "8GB DDR4"⟩] (by decide),
   (prompt_empty_cart_rendering.2.2.2.2.1 (some [⟨"RAM", "8GB DDR4"⟩])).mpr
      ⟨[⟨"RAM", "8GB DDR4"⟩], rfl, by decide⟩⟩

/-- C9: the finishing callback of a banner submission runs exactly when
the document write succeeds; on any failure the dialog open state is
left unchanged and a destructive notification carrying the error message
is emitted, while success closes the dialog. -/
theorem bannerSubmit_dialog_behavior (isEdit : Bool) :
    (∀ w, (bannerSubmit isEdit w).finishedCalled = true ↔ ∃ u, w = Except.ok u) ∧
    (∀ (e : WriteError) (openBefore : Bool),
      (bannerSubmit isEdit (Except.error e)).finishedCalled = false ∧
      dialogOpenAfter openBefore (bannerSubmit isEdit (Except.error e)) = openBefore ∧
      (bannerSubmit isEdit (Except.error e)).toast
          = ⟨"Error saving banner", some e.message, true⟩) ∧
    (∀ openBefore : Bool,
      dialogOpenAfter openBefore (bannerSubmit isEdit (Except.ok ())) = false) := by
  refine ⟨?_, ?_, ?_⟩
  · intro w
    cases w with
    | ok u => simp [bannerSubmit]
    | error e => simp [bannerSubmit]
  · intro e openBefore
    exact ⟨rfl, rfl, rfl⟩
  · intro openBefore
    rfl

/-- C9 witness: a concrete failed write leaves an open dialog open,
does not invoke the callback, and surfaces the error message; a
concrete successful write closes the dialog. -/
theorem bannerSubmit_dialog_behavior_witness :
    (bannerSubmit true (Except.error ⟨"permission denied"⟩)).finishedCalled = false ∧
    dialogOpenAfter true (bannerSubmit true (Except.error ⟨"permission denied"⟩)) = true ∧
    (bannerSubmit true (Except.error ⟨"permission denied"⟩)).toast
        = ⟨"Error saving banner", some "permission denied", true⟩ ∧
    dialogOpenAfter true (bannerSubmit true (Except.ok ())) = false :=
  ⟨((bannerSubmit_dialog_behavior true).2.1 ⟨"permission denied"⟩ true).1,
   ((bannerSubmit_dialog_behavior true).2.1 ⟨"permission denied"⟩ true).2.1,
   ((bannerSubmit_dialog_behavior true).2.1 ⟨"permission denied"⟩ true).2.2,
   (bannerSubmit_dialog_behavior true).2.2 true⟩

/-- C10: a banner edit writes exactly the validated form fields plus a
refreshed update timestamp: the payload keys lie within those eight
field names, always include the update timestamp, never include the
creation timestamp or the id, and applying the update to any stored
document leaves its creation timestamp unchanged while refreshing the
update timestamp. -/
theorem editPayload_frame (d : BannerFormData) (now : Nat)
    (doc : List (String × FieldValue)) :
    "createdAt" ∉ (editPayload d now).map Prod.fst ∧
    "id" ∉ (editPayload d now).map Prod.fst ∧
    (editPayload d now).map Prod.fst ⊆
      ["title", "subtitle", "imageUrl", "ctaLabel", "ctaLink", "isActive", "sortOrder",
        "updatedAt"] ∧
    "updatedAt" ∈ (editPayload d now).map Prod.fst ∧
    lookupField (applyUpdate doc (editPayload d now)) "createdAt"
        = lookupField doc "createdAt" ∧
    lookupField (applyUpdate doc (editPayload d now)) "updatedAt"
        = some (FieldValue.ts now) := by
  have hsub : (editPayload d now).map Prod.fst ⊆
      ["title", "subtitle", "imageUrl", "ctaLabel", "ctaLink", "isActive", "sortOrder",
        "updatedAt"] := by
    intro k hk
    simp only [editPayload, List.map_append, List.mem_append] at hk
    rcases hk with hk | hk
    · have h7 := dataFields_keys d hk
      simp only [List.mem_cons, List.not_mem_nil, or_false] at h7 ⊢
      tauto
    · simp at hk
      simp [hk]
  have hcr : "createdAt" ∉ (editPayload d now).map Prod.fst := by
    intro h
    have := hsub h
    simp at this
  have hid : "id" ∉ (editPayload d now).map Prod.fst := by
    intro h
    have := hsub h
    simp at this
  have hupd : lookupField (applyUpdate doc (editPayload d now)) "updatedAt"
      = some (FieldValue.ts now) := by
    rw [editPayload, applyUpdate_append]
    exact lookupField_setField_self (applyUpdate doc (dataFields d)) "updatedAt"
      (FieldValue.ts now)
  refine ⟨hcr, hid, hsub, ?_, ?_, hupd⟩
  · simp [editPayload]
  · exact lookupField_applyUpdate_not_mem doc (editPayload d now) "createdAt" hcr

/-- C10 witness: applying a concrete edit payload to a concrete stored
document preserves its creation timestamp and refreshes its update
timestamp. -/
theorem editPayload_frame_witness :
    lookupField
        (applyUpdate [("createdAt", FieldValue.ts 1), ("title", FieldValue.s "Old")]
          (editPayload (BannerFormData.mk "Sale" none "https://x.com/a.png" none none true 1) 5))
        "createdAt"
      = lookupField [("createdAt", FieldValue.ts 1), ("title", FieldValue.s "Old")]
          "createdAt" ∧
    lookupField
        (applyUpdate [("createdAt", FieldValue.ts 1), ("title", FieldValue.s "Old")]
          (editPayload (BannerFormData.mk "Sale" none "https://x.com/a.png" none none true 1) 5))
        "updatedAt"
      = some (FieldValue.ts 5) :=
  ⟨(editPayload_frame (BannerFormData.mk "Sale" none "https://x.com/a.png" none none true 1) 5
      [("createdAt", FieldValue.ts 1), ("title", FieldValue.s "Old")]).2.2.2.2.1,
   (editPayload_frame (BannerFormData.mk "Sale" none "https://x.com/a.png" none none true 1) 5
      [("createdAt", FieldValue.ts 1), ("title", FieldValue.s "Old")]).2.2.2.2.2⟩

end Lapking
